import Mathlib

/-!
Verification model of `server.js` (YouTube music downloader service).

The file embeds the request-handling logic of the server as pure Lean
functions: the per-IP sliding-window rate limiter (`checkRateLimit`), the
stderr progress classifier and its percentage regex, the retry decision of
`tryDownloadWithFallbacks`, the stdout-to-response streaming, the
WebSocket broadcast, and the `activeDownloads` map lifecycle.  JavaScript
`Map` objects are modelled as association lists in insertion order,
`Date.now()` instants as natural-number milliseconds, and subprocess exit
codes as integers.  Display-only message strings and the logging calls are
not modelled.  Theorems about the claims of the specification follow the
definitions.
-/

namespace YtMusic

/-- Test whether the char list `needle` is a prefix of `hay`. -/
def startsWithChars : List Char → List Char → Bool
  | [], _ => true
  | _ :: _, [] => false
  | a :: as, b :: bs => a == b && startsWithChars as bs

/-- Test whether `needle` occurs contiguously somewhere in `hay`. -/
def hasSubChars (needle : List Char) : List Char → Bool
  | [] => needle.isEmpty
  | c :: cs => startsWithChars needle (c :: cs) || hasSubChars needle cs

/-- JavaScript `haystack.includes(pattern)` for strings. -/
def strIncludes (s pat : String) : Bool := hasSubChars pat.toList s.toList

/-- JavaScript `Map.prototype.get`, on an insertion-ordered association list. -/
def jsMapGet? {α : Type} : List (String × α) → String → Option α
  | [], _ => none
  | p :: t, k => if p.1 == k then some p.2 else jsMapGet? t k

/-- JavaScript `Map.prototype.set`: replaces the value of an existing key in
place, otherwise appends the new binding at the end. -/
def jsMapSet {α : Type} : List (String × α) → String → α → List (String × α)
  | [], k, v => [(k, v)]
  | p :: t, k, v => if p.1 == k then (k, v) :: t else p :: jsMapSet t k v

/-- JavaScript `Map.prototype.delete`. -/
def jsMapDelete {α : Type} (m : List (String × α)) (k : String) : List (String × α) :=
  m.filter (fun p => p.1 != k)

/-! ### Rate limiter (`checkRateLimit` in server.js) -/

/-- Window length of 60 * 1000 milliseconds. -/
def RATE_LIMIT_WINDOW : Nat := 60 * 1000

/-- Maximum of 3 downloads per minute per IP. -/
def RATE_LIMIT_MAX : Nat := 3

/-- State of the `rateLimitMap`: IP address to list of request instants. -/
abbrev RateMap := List (String × List Nat)

/-- Function `checkRateLimit` from server.js, with the clock reading passed in as `now`
and the mutable `rateLimitMap` passed and returned explicitly.  Returns the
boolean result together with the updated map. -/
def checkRateLimit (ip : String) (now : Nat) (m : RateMap) : Bool × RateMap :=
  let userRequests := (jsMapGet? m ip).getD []
  let recentRequests := userRequests.filter (fun time => now - time < RATE_LIMIT_WINDOW)
  if RATE_LIMIT_MAX ≤ recentRequests.length then
    (false, m)
  else
    (true, jsMapSet m ip (recentRequests ++ [now]))

/-! ### Stderr progress classification (`ytdlp.stderr.on("data", ...)` handler) -/

/-- Result of the ordered substring chain that assigns a phase, a display
color and a step number to one chunk of yt-dlp stderr output. -/
structure LineClass where
  phase : String
  color : String
  stepNumber : Nat
  totalSteps : Nat
deriving DecidableEq

/-- The ordered `if`/`else if` substring chain of the stderr handler in
server.js (identical in all variants); unmatched output keeps the defaults
the defaults: phase `preparing` at step 0. -/
def classifyLine (output : String) : LineClass :=
  if strIncludes output "Extracting URL" then ⟨"extracting", "#ff6b6b", 1, 5⟩
  else if strIncludes output "Downloading webpage" then ⟨"webpage", "#ffa500", 2, 5⟩
  else if strIncludes output "Downloading android" || strIncludes output "player API" then
    ⟨"api", "#ffff00", 3, 5⟩
  else if strIncludes output "Downloading m3u8" || strIncludes output "information" then
    ⟨"info", "#87ceeb", 4, 5⟩
  else if strIncludes output "[download]" && strIncludes output "%" then
    ⟨"downloading", "#00ff00", 5, 5⟩
  else ⟨"preparing", "#ff6b6b", 0, 5⟩

/-- The character class `\s` of the progress regex (ASCII part; the test
strings of interest contain only plain spaces). -/
def isJsSpace (c : Char) : Bool :=
  c == ' ' || c == '\t' || c == '\n' || c == '\r' || c == '\x0b' || c == '\x0c'

/-- Span split: longest prefix satisfying `p`, and the rest. -/
def spanChars (p : Char → Bool) : List Char → List Char × List Char
  | [] => ([], [])
  | c :: cs =>
    if p c then
      let r := spanChars p cs
      (c :: r.1, r.2)
    else ([], c :: cs)

/-- Digits of a captured group read as a natural number. -/
def digitsToNat (ds : List Char) : Nat :=
  ds.foldl (fun acc c => 10 * acc + (c.toNat - '0'.toNat)) 0

/-- Match `\s+(\d+)\.(\d+)%` against the text following a `[download]`
marker.  Because each repetition class is disjoint from the character that
follows it, maximal munch coincides with the backtracking regex semantics.
Returns (integer digits, fraction digits, number of fraction digits). -/
def matchAfterMarker (cs : List Char) : Option (Nat × Nat × Nat) :=
  let s := spanChars isJsSpace cs
  if s.1.isEmpty then none else
  let d1 := spanChars Char.isDigit s.2
  if d1.1.isEmpty then none else
  match d1.2 with
  | '.' :: rest3 =>
    let d2 := spanChars Char.isDigit rest3
    if d2.1.isEmpty then none else
    match d2.2 with
    | '%' :: _ => some (digitsToNat d1.1, digitsToNat d2.1, d2.1.length)
    | _ => none
  | _ => none

/-- The literal `[download]` marker of the progress regex. -/
def dlMarker : List Char := "[download]".toList

/-- Model of the regex match against the whole line: scan start positions left
to right; at each occurrence of the literal `[download]` try the rest of the
pattern, otherwise move on (a failed tail can be followed by a later
successful occurrence, as in the regex engine). -/
def findProgress : List Char → Option (Nat × Nat × Nat)
  | [] => none
  | c :: cs =>
    if startsWithChars dlMarker (c :: cs) then
      match matchAfterMarker ((c :: cs).drop dlMarker.length) with
      | some r => some r
      | none => findProgress cs
    else findProgress cs

/-- Value of the captured decimal group, as an exact rational:
integer part `i`, fraction digits with value `f` and length `k`. -/
def progressValue (i f k : Nat) : ℚ := (i : ℚ) + (f : ℚ) / ((10 : ℚ) ^ k)

/-! ### WebSocket broadcast -/

/-- One connected WebSocket; `readyState = 1` is the OPEN state tested by
the broadcast loops (`client.readyState === 1`). -/
structure WsClient where
  cid : Nat
  readyState : Nat
deriving DecidableEq

/-- Events sent over the WebSocket.  The JSON payloads carry a `type`
discriminator plus the fields modelled here; display-only `message` and
`color`-on-progress fields are projected away. -/
inductive WsEvent where
  | progress (videoId : String) (phase : String) (percent : ℚ)
  | phaseUpd (id : String) (phase : String) (color : String)
  | complete (id : String)
  | errorEvt (id : String) (error : String)
deriving DecidableEq

/-- The broadcast loop over `wss.clients`, which sends the event to each
client whose ready state is OPEN: the list of deliveries performed, as
pairs of client id and event. -/
def broadcast (clients : List WsClient) (e : WsEvent) : List (Nat × WsEvent) :=
  (clients.filter (fun c => c.readyState == 1)).map (fun c => (c.cid, e))

/-- The single WebSocket event emitted by the stderr handler for one chunk
`output`: a `progress` event when the downloading branch was entered and the
percentage regex matched, otherwise a `phase` event. -/
def stderrEvent (id : String) (output : String) : WsEvent :=
  let c := classifyLine output
  if c.phase == "downloading" then
    match findProgress output.toList with
    | some r => .progress id c.phase (progressValue r.1 r.2.1 r.2.2)
    | none => .phaseUpd id c.phase c.color
  else .phaseUpd id c.phase c.color

/-! ### Retry strategies (`tryDownloadWithFallbacks` argument tables) -/

/-- Attempt cap of 3 in `tryDownloadWithFallbacks`. -/
def maxAttempts : Nat := 3

/-- The yt-dlp argument list of attempt 1 / 2 / 3 of
`tryDownloadWithFallbacks` (server.js lines 159-192).  `cookiesPath` is the
path computed by `setupCookies()` at startup; `id` is the video id. -/
def downloadArgs (cookiesPath id : String) (attempt : Nat) : List String :=
  if attempt == 1 then
    ["--cookies", cookiesPath,
     "-f", "bestaudio[ext=webm]/bestaudio[ext=m4a]/bestaudio",
     "--no-warnings", "--progress", "--newline",
     "--extractor-args", "youtube:player_client=android,web",
     "--user-agent", "Mozilla/5.0 (Linux; Android 10; SM-G973F) AppleWebKit/537.36 (KHTML, like Gecko) Chrome/120.0.0.0 Mobile Safari/537.36",
     "--geo-bypass", "--socket-timeout", "30",
     "--no-playlist", "https://www.youtube.com/watch?v=" ++ id, "-o", "-"]
  else if attempt == 2 then
    ["--cookies", cookiesPath,
     "-f", "bestaudio[ext=webm]/bestaudio[ext=m4a]/bestaudio",
     "--no-warnings", "--progress", "--newline",
     "--extractor-args", "youtube:player_client=ios,web",
     "--user-agent", "Mozilla/5.0 (iPhone; CPU iPhone OS 15_0 like Mac OS X) AppleWebKit/605.1.15 (KHTML, like Gecko) Version/15.0 Mobile/15E148 Safari/604.1",
     "--geo-bypass", "--socket-timeout", "30",
     "--no-playlist", "https://www.youtube.com/watch?v=" ++ id, "-o", "-"]
  else
    ["--cookies", cookiesPath,
     "-f", "bestaudio", "--no-warnings", "--progress", "--newline",
     "--extractor-args", "youtube:player_client=web",
     "--user-agent", "Mozilla/5.0 (Windows NT 10.0; Win64; x64) AppleWebKit/537.36 (KHTML, like Gecko) Chrome/120.0.0.0 Safari/537.36",
     "--no-playlist", "https://www.youtube.com/watch?v=" ++ id, "-o", "-"]

/-! ### HTTP response state -/

/-- Observable state of the Express `res` object.  `headersSent` becomes
true on the first `write`/`end`/`status().json()` call; `body` records the
chunks actually written; `status` records an explicit error status. -/
structure ResState where
  headers : List (String × String)
  headersSent : Bool
  body : List (List Nat)
  ended : Bool
  status : Option Nat
deriving DecidableEq

/-- A fresh response: nothing sent yet. -/
def initialRes : ResState := ⟨[], false, [], false, none⟩

/-- The two `res.setHeader` calls made before streaming. -/
def setDownloadHeaders (id : String) (r : ResState) : ResState :=
  { r with headers :=
      [("Content-Type", "audio/webm"),
       ("Content-Disposition", "attachment; filename=\"" ++ id ++ ".webm\"")] }

/-- Stdout handler of the retrying variant for one chunk: the write is
guarded by the negation of `res.headersSent`, and a write flushes the
headers, so `headersSent` becomes true after the first chunk. -/
def onStdoutChunk (r : ResState) (d : List Nat) : ResState :=
  if r.headersSent then r
  else { r with headersSent := true, body := r.body ++ [d] }

/-- All stdout chunks of one subprocess run through the stdout handler of
the retrying variant, in emission order. -/
def runStdout (r : ResState) (chunks : List (List Nat)) : ResState :=
  chunks.foldl onStdoutChunk r

/-- The simple variant streams with `ytdlp.stdout.pipe(res)`: every chunk is
written to the response. -/
def runStdoutPiped (r : ResState) (chunks : List (List Nat)) : ResState :=
  chunks.foldl (fun r d => { r with headersSent := true, body := r.body ++ [d] }) r

/-- Piping also ends the response when the source stream ends. -/
def pipeEnd (r : ResState) : ResState := { r with headersSent := true, ended := true }

/-! ### Active downloads map -/

/-- Entry of `activeDownloads`: subprocess handle (modelled as an identifier),
last progress percentage, and (retrying variant) the attempt number. -/
structure DownloadEntry where
  pid : Nat
  progress : ℚ
  attempt : Nat
deriving DecidableEq

/-- The `activeDownloads` map. -/
abbrev ADMap := List (String × DownloadEntry)

/-- Creation of the `activeDownloads` entry — process handle, progress 0,
attempt number — when an attempt of an accepted download request starts. -/
def acceptDownload (m : ADMap) (id : String) (pid attempt : Nat) : ADMap :=
  jsMapSet m id ⟨pid, 0, attempt⟩

/-- Assignment to the progress field of the `activeDownloads` entry on a
matching progress line: updates the entry in place when present. -/
def updateProgress (m : ADMap) (id : String) (p : ℚ) : ADMap :=
  m.map (fun q => if q.1 == id then (q.1, { q.2 with progress := p }) else q)

/-- Number of entries of `m` stored under key `k`. -/
def countKey {α : Type} (m : List (String × α)) (k : String) : Nat :=
  (m.filter (fun p => p.1 == k)).length

/-! ### The close handler of `tryDownloadWithFallbacks` -/

/-- What the close handler decides to do next. -/
inductive CloseAction where
  | success
  | retry (nextAttempt : Nat) (delayMs : Nat)
  | fail
deriving DecidableEq

/-- The branch structure of `ytdlp.on("close", ...)` in
`tryDownloadWithFallbacks` (server.js lines 274-345): success on
`code === 0 && hasData`; otherwise retry (after a 2000 ms `setTimeout`) when
`attempt < maxAttempts && (errorOutput.includes("Sign in to confirm") ||
errorOutput.includes("bot") || code === 1)`; otherwise terminal failure. -/
def closeDecision (code : Int) (hasData : Bool) (errorOutput : String) (attempt : Nat) :
    CloseAction :=
  if code == 0 && hasData then .success
  else if decide (attempt < maxAttempts) &&
      (strIncludes errorOutput "Sign in to confirm" || strIncludes errorOutput "bot" ||
       code == 1) then
    .retry (attempt + 1) 2000
  else .fail

/-- Combined effect of the close handler of the retrying variant: the
`activeDownloads` entry is deleted first in every branch; on success a
`complete` event is broadcast and the response is ended only when headers
were not yet sent; on retry a `retrying` phase event is broadcast; on
terminal failure an error event is broadcast and a 500 JSON body is sent
only when headers were not yet sent. -/
structure CloseResult where
  downloads : ADMap
  events : List WsEvent
  res : ResState
  action : CloseAction
deriving DecidableEq

def handleClose (id : String) (code : Int) (hasData : Bool) (errorOutput : String)
    (attempt : Nat) (r : ResState) (m : ADMap) : CloseResult :=
  let m' := jsMapDelete m id
  match closeDecision code hasData errorOutput attempt with
  | .success =>
      ⟨m', [.complete id],
       if r.headersSent then r else { r with headersSent := true, ended := true },
       .success⟩
  | .retry n d => ⟨m', [.phaseUpd id "retrying" "#ffa500"], r, .retry n d⟩
  | .fail =>
      ⟨m', [.errorEvt id "all_attempts_failed"],
       if r.headersSent then r
       else { r with headersSent := true, ended := true, status := some 500 },
       .fail⟩

/-- The spawn-error handler of the retrying variant (spawn-level
error): delete the entry; retry after 2000 ms while `attempt < maxAttempts`,
otherwise send a 500 JSON body when headers were not yet sent.  No WebSocket
event is emitted on this path. -/
def handleSpawnErr (id : String) (attempt : Nat) (r : ResState) (m : ADMap) : CloseResult :=
  let m' := jsMapDelete m id
  if attempt < maxAttempts then ⟨m', [], r, .retry (attempt + 1) 2000⟩
  else
    ⟨m', [],
     if r.headersSent then r
     else { r with headersSent := true, ended := true, status := some 500 },
     .fail⟩

/-- The close handler of the simple variant (server.js lines
653-672): on `code === 0` broadcast `complete`; otherwise send a 500 when
headers were not yet sent.  (The response itself was already ended by
`pipe` when the stdout stream ended.) -/
def handleCloseSimple (id : String) (code : Int) (r : ResState) : ResState × List WsEvent :=
  if code == 0 then (r, [.complete id])
  else
    (if r.headersSent then r
     else { r with headersSent := true, ended := true, status := some 500 }, [])

/-- Success flow of the simple variant: headers set, stdout piped to the
response (which ends it when the stream ends), then the close handler with
exit code 0. -/
def simpleSuccessFlow (id : String) (chunks : List (List Nat)) : ResState × List WsEvent :=
  let r0 := setDownloadHeaders id initialRes
  let r1 := pipeEnd (runStdoutPiped r0 chunks)
  handleCloseSimple id 0 r1

/-! ### Route guards (`/search` and `/download`) -/

/-- JavaScript falsiness of an optional string parameter (`!q`, `!id`):
missing or empty. -/
def jsFalsyStr : Option String → Bool
  | none => true
  | some s => s.isEmpty

/-- A call to the external search provider (`YouTube.search`), recording the
options it was invoked with. -/
structure SearchCall where
  query : String
  limit : Nat
  searchType : String
deriving DecidableEq

/-- Raw provider result (`youtube-sr` video), duration in milliseconds. -/
structure RawResult where
  vid : String
  title : String
  durationMs : Nat
  thumbnailUrl : Option String
deriving DecidableEq

/-- Projected shape returned by `/search`, duration in whole seconds. -/
structure SimpleResult where
  vid : String
  title : String
  duration : Nat
  thumbnail : Option String
deriving DecidableEq

inductive SearchResponse where
  | ok (results : List SimpleResult)
  | err (status : Nat) (code : String)
deriving DecidableEq

/-- The `/search` route handler: `if (!q) return res.json([])`, otherwise
call the provider with a limit of 10 restricted to videos, project the
results (duration floored to seconds), and answer 500 `search_failed` when the
provider throws.  Returns the response together with the provider calls
made. -/
def searchRoute (q : Option String)
    (provider : SearchCall → Except String (List RawResult)) :
    SearchResponse × List SearchCall :=
  if jsFalsyStr q then (.ok [], [])
  else
    let call : SearchCall := ⟨q.getD "", 10, "video"⟩
    match provider call with
    | .ok results =>
        (.ok (results.map fun v => ⟨v.vid, v.title, v.durationMs / 1000, v.thumbnailUrl⟩),
         [call])
    | .error _ => (.err 500 "search_failed", [call])

/-- Outcome of the `/download` route guards. -/
inductive DlResponse where
  | prompt (msg : String)
  | rateLimited
  | proceed
deriving DecidableEq

structure GateResult where
  response : DlResponse
  rateMap : RateMap
  spawns : Nat
deriving DecidableEq

/-- The `/download` route of the retrying variant (server.js lines 369-388):
missing id answers a plain-text prompt before anything else; then the rate
limit gate answers 429; otherwise `tryDownloadWithFallbacks` spawns the
extraction subprocess.  `spawns` counts subprocesses started by the request
itself (the first attempt). -/
def downloadRoute (id : Option String) (ip : String) (now : Nat) (m : RateMap) : GateResult :=
  if jsFalsyStr id then ⟨.prompt "video id required", m, 0⟩
  else
    let c := checkRateLimit ip now m
    if c.1 then ⟨.proceed, c.2, 1⟩ else ⟨.rateLimited, c.2, 0⟩

/-- The `/download` route of the rate-limited simple variant (lines 820-881):
missing id answers the prompt; then the rate-limit gate; otherwise a
metadata subprocess is spawned when the id is not cached, and the extraction
subprocess is spawned. -/
def downloadRouteSimple (id : Option String) (ip : String) (now : Nat) (m : RateMap)
    (metadataCached : Bool) : GateResult :=
  if jsFalsyStr id then ⟨.prompt "video id required", m, 0⟩
  else
    let c := checkRateLimit ip now m
    if c.1 then ⟨.proceed, c.2, (if metadataCached then 0 else 1) + 1⟩
    else ⟨.rateLimited, c.2, 0⟩

/-! ## Helper lemmas -/

theorem jsMapSet_forall {α : Type} {P : String × α → Prop} (m : List (String × α))
    (k : String) (v : α) (h : ∀ p ∈ m, P p) (hv : P (k, v)) :
    ∀ p ∈ jsMapSet m k v, P p := by
  induction m with
  | nil =>
    intro p hp
    simp only [jsMapSet, List.mem_singleton] at hp
    exact hp ▸ hv
  | cons q t ih =>
    intro p hp
    by_cases hq : (q.1 == k) = true
    · simp only [jsMapSet, hq, if_true, List.mem_cons] at hp
      rcases hp with hp | hp
      · exact hp ▸ hv
      · exact h p (List.mem_cons_of_mem _ hp)
    · simp only [jsMapSet, hq, if_false, Bool.false_eq_true, List.mem_cons] at hp
      rcases hp with hp | hp
      · exact hp ▸ h q (List.mem_cons_self q t)
      · exact ih (fun p hp => h p (List.mem_cons_of_mem _ hp)) p hp

theorem mem_broadcast (clients : List WsClient) (e : WsEvent) (c : WsClient)
    (hc : c ∈ clients) (hopen : c.readyState = 1) :
    (c.cid, e) ∈ broadcast clients e := by
  unfold broadcast
  exact List.mem_map.mpr ⟨c, List.mem_filter.mpr ⟨hc, by simp [hopen]⟩, rfl⟩

/-! ## C1: sliding-window rate limit -/

/-- C1: `checkRateLimit` prunes the stored instants of the client IP to
those within the trailing 60-second window; when at least `RATE_LIMIT_MAX`
(3) instants remain it answers `false` leaving the map untouched, otherwise
it appends the current instant and answers `true`.  Consequently four
requests of the same IP inside one window are answered true, true, true,
false (the 4th receives the 429 response), and a request issued after all
stored instants have aged past the window is accepted. -/
theorem checkRateLimit_window (ip : String) (t1 t2 t3 t4 : Nat)
    (h12 : t1 ≤ t2) (h23 : t2 ≤ t3) (h34 : t3 ≤ t4)
    (hwin : t4 - t1 < RATE_LIMIT_WINDOW) :
    (∀ now m,
      (RATE_LIMIT_MAX ≤ (((jsMapGet? m ip).getD []).filter
          (fun t => now - t < RATE_LIMIT_WINDOW)).length →
        checkRateLimit ip now m = (false, m)) ∧
      ((((jsMapGet? m ip).getD []).filter
          (fun t => now - t < RATE_LIMIT_WINDOW)).length < RATE_LIMIT_MAX →
        checkRateLimit ip now m =
          (true, jsMapSet m ip
            ((((jsMapGet? m ip).getD []).filter
              (fun t => now - t < RATE_LIMIT_WINDOW)) ++ [now])))) ∧
    (∀ now m, (∀ t ∈ (jsMapGet? m ip).getD [], t + RATE_LIMIT_WINDOW ≤ now) →
      (checkRateLimit ip now m).1 = true) ∧
    ((checkRateLimit ip t1 []).1 = true ∧
     (checkRateLimit ip t2 (checkRateLimit ip t1 []).2).1 = true ∧
     (checkRateLimit ip t3 (checkRateLimit ip t2 (checkRateLimit ip t1 []).2).2).1 = true ∧
     (checkRateLimit ip t4
       (checkRateLimit ip t3 (checkRateLimit ip t2 (checkRateLimit ip t1 []).2).2).2).1
       = false) := by
  have hw : t4 - t1 < 60000 := by simpa [RATE_LIMIT_WINDOW] using hwin
  refine ⟨fun now m => ⟨fun h => ?_, fun h => ?_⟩, fun now m h => ?_, ?_⟩
  · simp only [checkRateLimit]
    rw [if_pos h]
  · simp only [checkRateLimit]
    rw [if_neg (Nat.not_le.mpr h)]
  · have hnil : (((jsMapGet? m ip).getD []).filter
        (fun t => now - t < RATE_LIMIT_WINDOW)) = [] := by
      refine List.filter_eq_nil_iff.mpr fun t ht => ?_
      have := h t ht
      simp only [decide_eq_true_eq]
      omega
    simp [checkRateLimit, hnil, RATE_LIMIT_MAX]
  · have w21 : t2 - t1 < 60000 := by omega
    have w31 : t3 - t1 < 60000 := by omega
    have w32 : t3 - t2 < 60000 := by omega
    have w42 : t4 - t2 < 60000 := by omega
    have w43 : t4 - t3 < 60000 := by omega
    have e1 : checkRateLimit ip t1 [] = (true, [(ip, [t1])]) := by
      norm_num [checkRateLimit, jsMapGet?, jsMapSet, RATE_LIMIT_MAX]
    have e2 : checkRateLimit ip t2 [(ip, [t1])] = (true, [(ip, [t1, t2])]) := by
      norm_num [checkRateLimit, jsMapGet?, jsMapSet, RATE_LIMIT_MAX, RATE_LIMIT_WINDOW, w21]
    have e3 : checkRateLimit ip t3 [(ip, [t1, t2])] = (true, [(ip, [t1, t2, t3])]) := by
      norm_num [checkRateLimit, jsMapGet?, jsMapSet, RATE_LIMIT_MAX, RATE_LIMIT_WINDOW,
        w31, w32]
    have e4 : (checkRateLimit ip t4 [(ip, [t1, t2, t3])]).1 = false := by
      norm_num [checkRateLimit, jsMapGet?, RATE_LIMIT_MAX, RATE_LIMIT_WINDOW, hw, w42, w43]
    simp [e1, e2, e3, e4]

/-- Witness for C1 at a concrete IP and instants 0, 1, 2, 3: with three
instants already stored in the window, the check at instant 3 is refused and
the map is left unchanged. -/
theorem checkRateLimit_window_witness :
    checkRateLimit "203.0.113.7" 3 [("203.0.113.7", [0, 1, 2])]
      = (false, [("203.0.113.7", [0, 1, 2])]) :=
  ((checkRateLimit_window "203.0.113.7" 0 1 2 3 (by decide) (by decide) (by decide)
      (by decide)).1 3 [("203.0.113.7", [0, 1, 2])]).1 (by decide)

/-! ## C9: rejection leaves the rate state unchanged; stored lists stay ≤ 3 -/

/-- C9: a rejected `checkRateLimit` call returns the map unchanged (the
pruned list is not written back and no instant is recorded), and whenever
every stored list holds at most `RATE_LIMIT_MAX` (3) instants, the same
holds after any call — so reachable states never store more than 3 instants
per IP. -/
theorem checkRateLimit_reject_unchanged (ip : String) (now : Nat) (m : RateMap)
    (h : ∀ p ∈ m, p.2.length ≤ RATE_LIMIT_MAX) :
    ((checkRateLimit ip now m).1 = false → (checkRateLimit ip now m).2 = m) ∧
    (∀ p ∈ (checkRateLimit ip now m).2, p.2.length ≤ RATE_LIMIT_MAX) := by
  by_cases hc : RATE_LIMIT_MAX ≤ (((jsMapGet? m ip).getD []).filter
      (fun t => now - t < RATE_LIMIT_WINDOW)).length
  · simp only [checkRateLimit, if_pos hc]
    exact ⟨by simp, h⟩
  · simp only [checkRateLimit, if_neg hc]
    refine ⟨fun hfalse => by simp at hfalse, ?_⟩
    refine jsMapSet_forall m ip _ h ?_
    have : (((jsMapGet? m ip).getD []).filter
        (fun t => now - t < RATE_LIMIT_WINDOW)).length < RATE_LIMIT_MAX :=
      Nat.not_le.mp hc
    simp only [List.length_append, List.length_singleton]
    omega

/-- Witness for C9: a concrete saturated state is left unchanged by a
rejected call, and all stored lists stay within the bound. -/
theorem checkRateLimit_reject_unchanged_witness :
    ((checkRateLimit "198.51.100.2" 5 [("198.51.100.2", [1, 2, 3])]).1 = false →
      (checkRateLimit "198.51.100.2" 5 [("198.51.100.2", [1, 2, 3])]).2
        = [("198.51.100.2", [1, 2, 3])]) ∧
    (∀ p ∈ (checkRateLimit "198.51.100.2" 5 [("198.51.100.2", [1, 2, 3])]).2,
      p.2.length ≤ RATE_LIMIT_MAX) :=
  checkRateLimit_reject_unchanged "198.51.100.2" 5 [("198.51.100.2", [1, 2, 3])]
    (by decide)

/-! ## C6: the search route -/

/-- C6: on `/search`, an absent or empty query answers the empty list with
no provider call; a non-empty query calls the provider exactly once with a
limit of 10 restricted to videos, and a provider failure is answered 500
`search_failed`. -/
theorem searchRoute_spec (q : Option String)
    (provider : SearchCall → Except String (List RawResult)) :
    (jsFalsyStr q = true → searchRoute q provider = (.ok [], [])) ∧
    (jsFalsyStr q = false →
      (searchRoute q provider).2 = [⟨q.getD "", 10, "video"⟩] ∧
      (∀ msg, provider ⟨q.getD "", 10, "video"⟩ = .error msg →
        (searchRoute q provider).1 = .err 500 "search_failed") ∧
      (∀ results, provider ⟨q.getD "", 10, "video"⟩ = .ok results →
        (searchRoute q provider).1 =
          .ok (results.map fun v => ⟨v.vid, v.title, v.durationMs / 1000, v.thumbnailUrl⟩))) := by
  constructor
  · intro h
    simp [searchRoute, h]
  · intro h
    refine ⟨?_, fun msg hmsg => ?_, fun results hres => ?_⟩
    · simp only [searchRoute, h, Bool.false_eq_true, if_false]
      rcases hp : provider ⟨q.getD "", 10, "video"⟩ <;> simp
    · simp [searchRoute, h, hmsg]
    · simp [searchRoute, h, hres]

/-- Witness for C6 at an absent query and at a failing provider. -/
theorem searchRoute_spec_witness :
    searchRoute none (fun _ => .error "boom") = (.ok [], []) ∧
    (searchRoute (some "lofi") (fun _ => .error "boom")).1 = .err 500 "search_failed" :=
  ⟨(searchRoute_spec none (fun _ => .error "boom")).1 rfl,
   ((searchRoute_spec (some "lofi") (fun _ => .error "boom")).2 rfl).2.1 "boom" rfl⟩

/-! ## C7: missing id spawns nothing -/

/-- C7: a `/download` request whose `id` parameter is missing (or empty,
which is equally falsy) is answered with the plain-text prompt, spawns no
subprocess — neither the extraction nor the metadata subprocess — and
leaves the rate-limit state untouched, in both route variants. -/
theorem downloadRoute_missing_id (id : Option String) (ip : String) (now : Nat)
    (m : RateMap) (metadataCached : Bool) (h : jsFalsyStr id = true) :
    downloadRoute id ip now m = ⟨.prompt "video id required", m, 0⟩ ∧
    downloadRouteSimple id ip now m metadataCached
      = ⟨.prompt "video id required", m, 0⟩ := by
  constructor <;> simp [downloadRoute, downloadRouteSimple, h]

/-- Witness for C7 at an absent id. -/
theorem downloadRoute_missing_id_witness :
    downloadRoute none "192.0.2.1" 100 [] = ⟨.prompt "video id required", [], 0⟩ ∧
    downloadRouteSimple none "192.0.2.1" 100 [] false
      = ⟨.prompt "video id required", [], 0⟩ :=
  downloadRoute_missing_id none "192.0.2.1" 100 [] false rfl

/-! ## C3: classification of a `[download]  42.5%` line -/

/-- Counterexample to C3 as stated: not every stderr line containing the
text `[download]  42.5%` classifies as `downloading` with a progress
broadcast of 42.5.  The substring chain is ordered, so a line that also
contains an earlier-phase marker classifies as that earlier phase and only
a `phase` event is emitted; and the percentage regex takes the first match,
so a line with an earlier percentage broadcasts that percentage instead. -/
theorem classify_contains_not_sufficient :
    (strIncludes "Downloading webpage [download]  42.5%" "[download]  42.5%" = true ∧
     classifyLine "Downloading webpage [download]  42.5%" ≠ ⟨"downloading", "#00ff00", 5, 5⟩ ∧
     stderrEvent "v" "Downloading webpage [download]  42.5%"
       = .phaseUpd "v" "webpage" "#ffa500") ∧
    (strIncludes "[download]  11.5% x [download]  42.5%" "[download]  42.5%" = true ∧
     stderrEvent "v" "[download]  11.5% x [download]  42.5%"
       = .progress "v" "downloading" (progressValue 11 5 1) ∧
     progressValue 11 5 1 ≠ progressValue 42 5 1) := by
  refine ⟨⟨by decide, by decide, rfl⟩, ⟨by decide, rfl, ?_⟩⟩
  norm_num [progressValue]

/-- C3 amended: every stderr line that begins with `[download]  42.5%` and
does not contain an earlier-phase marker classifies as phase `downloading`
at step 5 of 5, and a `progress` event carrying percentage 42.5 is sent to
every open WebSocket client. -/
theorem downloadLine_progress_broadcast (rest id : String) (clients : List WsClient)
    (h1 : strIncludes ("[download]  42.5%" ++ rest) "Extracting URL" = false)
    (h2 : strIncludes ("[download]  42.5%" ++ rest) "Downloading webpage" = false)
    (h3 : strIncludes ("[download]  42.5%" ++ rest) "Downloading android" = false)
    (h4 : strIncludes ("[download]  42.5%" ++ rest) "player API" = false)
    (h5 : strIncludes ("[download]  42.5%" ++ rest) "Downloading m3u8" = false)
    (h6 : strIncludes ("[download]  42.5%" ++ rest) "information" = false) :
    classifyLine ("[download]  42.5%" ++ rest) = ⟨"downloading", "#00ff00", 5, 5⟩ ∧
    stderrEvent id ("[download]  42.5%" ++ rest)
      = .progress id "downloading" (42.5 : ℚ) ∧
    ∀ c ∈ clients, c.readyState = 1 →
      (c.cid, WsEvent.progress id "downloading" (42.5 : ℚ))
        ∈ broadcast clients (stderrEvent id ("[download]  42.5%" ++ rest)) := by
  have hdl : strIncludes ("[download]  42.5%" ++ rest) "[download]" = true := rfl
  have hpc : strIncludes ("[download]  42.5%" ++ rest) "%" = true := rfl
  have hfp : findProgress ("[download]  42.5%" ++ rest).toList = some (42, 5, 1) := rfl
  have hv : progressValue 42 5 1 = (42.5 : ℚ) := by norm_num [progressValue]
  have hcl : classifyLine ("[download]  42.5%" ++ rest) = ⟨"downloading", "#00ff00", 5, 5⟩ := by
    simp [classifyLine, h1, h2, h3, h4, h5, h6, hdl, hpc]
  have hev : stderrEvent id ("[download]  42.5%" ++ rest)
      = .progress id "downloading" (42.5 : ℚ) := by
    simp only [stderrEvent, hcl, hfp, hv, beq_self_eq_true, if_true]
  refine ⟨hcl, hev, fun c hc hopen => ?_⟩
  simpa [hev] using mem_broadcast clients _ c hc hopen

/-- Witness for the amended C3 at a realistic yt-dlp progress line and one
open client. -/
theorem downloadLine_progress_broadcast_witness :
    stderrEvent "dQw4w9WgXcQ"
        ("[download]  42.5%" ++ " of 3.00MiB at 512.00KiB/s ETA 00:05")
      = .progress "dQw4w9WgXcQ" "downloading" (42.5 : ℚ) ∧
    (7, WsEvent.progress "dQw4w9WgXcQ" "downloading" (42.5 : ℚ))
      ∈ broadcast [⟨7, 1⟩]
          (stderrEvent "dQw4w9WgXcQ"
            ("[download]  42.5%" ++ " of 3.00MiB at 512.00KiB/s ETA 00:05")) := by
  have h := downloadLine_progress_broadcast " of 3.00MiB at 512.00KiB/s ETA 00:05"
    "dQw4w9WgXcQ" [⟨7, 1⟩] (by decide) (by decide) (by decide) (by decide) (by decide)
    (by decide)
  exact ⟨h.2.1, h.2.2 ⟨7, 1⟩ (by simp) rfl⟩

/-! ## C10: a percentage without a decimal point -/

/-- C10: the line `[download]  42%` enters the downloading branch through
the substring test (phase `downloading`, step 5 of 5) but fails the
percentage regex, which requires digits on both sides of a decimal point;
for any such line no `progress` event is emitted — the broadcast is a
`phase` event with phase `downloading` and no percentage field, delivered
to every open client. -/
theorem downloadLine_noDecimal_phaseEvent :
    (classifyLine "[download]  42%" = ⟨"downloading", "#00ff00", 5, 5⟩ ∧
     findProgress ("[download]  42%".toList) = none) ∧
    (∀ id s (clients : List WsClient),
      classifyLine s = ⟨"downloading", "#00ff00", 5, 5⟩ →
      findProgress s.toList = none →
      stderrEvent id s = .phaseUpd id "downloading" "#00ff00" ∧
      ∀ c ∈ clients, c.readyState = 1 →
        (c.cid, WsEvent.phaseUpd id "downloading" "#00ff00")
          ∈ broadcast clients (stderrEvent id s)) := by
  refine ⟨⟨by decide, by decide⟩, fun id s clients hcl hfp => ?_⟩
  have hev : stderrEvent id s = .phaseUpd id "downloading" "#00ff00" := by
    simp only [stderrEvent, hcl, hfp, beq_self_eq_true, if_true]
  exact ⟨hev, fun c hc hopen => by simpa [hev] using mem_broadcast clients _ c hc hopen⟩

/-- Witness for C10 at the example line and one open client. -/
theorem downloadLine_noDecimal_phaseEvent_witness :
    stderrEvent "v" "[download]  42%" = .phaseUpd "v" "downloading" "#00ff00" ∧
    (3, WsEvent.phaseUpd "v" "downloading" "#00ff00")
      ∈ broadcast [⟨3, 1⟩] (stderrEvent "v" "[download]  42%") := by
  have h := downloadLine_noDecimal_phaseEvent.2 "v" "[download]  42%" [⟨3, 1⟩]
    (by decide) (by decide)
  exact ⟨h.1, h.2 ⟨3, 1⟩ (by simp) rfl⟩

/-! ## C2: the retry policy of `tryDownloadWithFallbacks` -/

/-- Counterexample to C2 as stated: the close handler enters its failure
branch whenever NOT (`code === 0 && hasData`), so a run that exits with
code 0 but produced no stdout data and whose stderr contains a
bot-detection marker IS retried — even though the condition claimed by the
specification (non-zero exit code AND a marker, OR exit code 1) is false
for exit code 0. -/
theorem closeDecision_zero_exit_retries :
    closeDecision 0 false "Sign in to confirm" 1 = .retry 2 2000 ∧
    ¬((((0 : Int) ≠ 0) ∧
        (strIncludes "Sign in to confirm" "Sign in to confirm" = true ∨
         strIncludes "Sign in to confirm" "bot" = true)) ∨
      (0 : Int) = 1) :=
  ⟨by decide, by decide⟩

/-- C2 amended: for every attempt below 3, a run that enters the failure
branch (exit code non-zero, or no stdout data) is retried exactly when the
accumulated stderr contains a bot-detection marker (`Sign in to confirm` or
`bot`) or the exit code equals 1, with a fixed 2000 ms delay before the next
attempt; any other failure is terminal, as is any failure at attempt 3; and
the three attempts use pairwise distinct fixed strategies (extractor
player-client, user agent, format selector). -/
theorem closeDecision_retry_policy (code : Int) (hasData : Bool) (err : String)
    (attempt : Nat) (hfail : ¬(code = 0 ∧ hasData = true)) :
    (attempt < maxAttempts →
      (closeDecision code hasData err attempt = .retry (attempt + 1) 2000 ↔
        (strIncludes err "Sign in to confirm" = true ∨ strIncludes err "bot" = true ∨
         code = 1))) ∧
    (maxAttempts ≤ attempt → closeDecision code hasData err attempt = .fail) ∧
    (¬(strIncludes err "Sign in to confirm" = true ∨ strIncludes err "bot" = true ∨
        code = 1) →
      closeDecision code hasData err attempt = .fail) ∧
    (∀ cookiesPath id : String,
      (downloadArgs cookiesPath id 1).get? 8 = some "youtube:player_client=android,web" ∧
      (downloadArgs cookiesPath id 2).get? 8 = some "youtube:player_client=ios,web" ∧
      (downloadArgs cookiesPath id 3).get? 8 = some "youtube:player_client=web" ∧
      (downloadArgs cookiesPath id 1).get? 8 ≠ (downloadArgs cookiesPath id 2).get? 8 ∧
      (downloadArgs cookiesPath id 1).get? 8 ≠ (downloadArgs cookiesPath id 3).get? 8 ∧
      (downloadArgs cookiesPath id 2).get? 8 ≠ (downloadArgs cookiesPath id 3).get? 8 ∧
      (downloadArgs cookiesPath id 1).get? 10 ≠ (downloadArgs cookiesPath id 2).get? 10 ∧
      (downloadArgs cookiesPath id 1).get? 10 ≠ (downloadArgs cookiesPath id 3).get? 10 ∧
      (downloadArgs cookiesPath id 2).get? 10 ≠ (downloadArgs cookiesPath id 3).get? 10 ∧
      (downloadArgs cookiesPath id 1).get? 3 ≠ (downloadArgs cookiesPath id 3).get? 3) := by
  have h0 : (code == 0 && hasData) = false := by
    cases hcd : (code == 0 && hasData) with
    | false => rfl
    | true =>
      rw [Bool.and_eq_true] at hcd
      exact absurd ⟨by simpa using hcd.1, hcd.2⟩ hfail
  refine ⟨fun hlt => ?_, fun hge => ?_, fun hnone => ?_, fun cookiesPath id => ?_⟩
  · have hd : decide (attempt < maxAttempts) = true := decide_eq_true hlt
    simp only [closeDecision, h0, Bool.false_eq_true, if_false, hd, Bool.true_and]
    constructor
    · intro h
      by_cases hb : (strIncludes err "Sign in to confirm" || strIncludes err "bot" ||
          code == 1) = true
      · simpa [or_assoc] using hb
      · rw [if_neg (by simp [hb])] at h
        exact absurd h (by simp)
    · intro h
      have hb : (strIncludes err "Sign in to confirm" || strIncludes err "bot" ||
          code == 1) = true := by simpa [or_assoc] using h
      rw [if_pos (by simp [hb])]
  · have hd : decide (attempt < maxAttempts) = false :=
      decide_eq_false (Nat.not_lt.mpr hge)
    simp [closeDecision, h0, hd]
  · have hb : (strIncludes err "Sign in to confirm" || strIncludes err "bot" ||
        code == 1) = false := by
      cases hb : (strIncludes err "Sign in to confirm" || strIncludes err "bot" ||
          code == 1) with
      | false => rfl
      | true => exact absurd (by simpa [or_assoc] using hb) hnone
    simp [closeDecision, h0, hb]
  · have e18 : (downloadArgs cookiesPath id 1).get? 8
        = some "youtube:player_client=android,web" := rfl
    have e28 : (downloadArgs cookiesPath id 2).get? 8
        = some "youtube:player_client=ios,web" := rfl
    have e38 : (downloadArgs cookiesPath id 3).get? 8
        = some "youtube:player_client=web" := rfl
    have e110 : (downloadArgs cookiesPath id 1).get? 10
        = some "Mozilla/5.0 (Linux; Android 10; SM-G973F) AppleWebKit/537.36 (KHTML, like Gecko) Chrome/120.0.0.0 Mobile Safari/537.36" := rfl
    have e210 : (downloadArgs cookiesPath id 2).get? 10
        = some "Mozilla/5.0 (iPhone; CPU iPhone OS 15_0 like Mac OS X) AppleWebKit/605.1.15 (KHTML, like Gecko) Version/15.0 Mobile/15E148 Safari/604.1" := rfl
    have e310 : (downloadArgs cookiesPath id 3).get? 10
        = some "Mozilla/5.0 (Windows NT 10.0; Win64; x64) AppleWebKit/537.36 (KHTML, like Gecko) Chrome/120.0.0.0 Safari/537.36" := rfl
    have e13 : (downloadArgs cookiesPath id 1).get? 3
        = some "bestaudio[ext=webm]/bestaudio[ext=m4a]/bestaudio" := rfl
    have e33 : (downloadArgs cookiesPath id 3).get? 3 = some "bestaudio" := rfl
    refine ⟨e18, e28, e38, ?_, ?_, ?_, ?_, ?_, ?_, ?_⟩
    · rw [e18, e28]; decide
    · rw [e18, e38]; decide
    · rw [e28, e38]; decide
    · rw [e110, e210]; decide
    · rw [e110, e310]; decide
    · rw [e210, e310]; decide
    · rw [e13, e33]; decide

/-- Witness for the amended C2: at attempt 1, an exit with code 1 and
bot-detection stderr is retried with the 2-second delay. -/
theorem closeDecision_retry_policy_witness :
    closeDecision 1 false "ERROR: Sign in to confirm" 1 = .retry 2 2000 ∧
    (downloadArgs "cookies.txt" "dQw4w9WgXcQ" 1).get? 8
      ≠ (downloadArgs "cookies.txt" "dQw4w9WgXcQ" 2).get? 8 := by
  have h := closeDecision_retry_policy 1 false "ERROR: Sign in to confirm" 1
    (by simp)
  exact ⟨(h.1 (by decide)).mpr (Or.inl (by decide)),
         (h.2.2.2 "cookies.txt" "dQw4w9WgXcQ").2.2.2.1⟩

/-! ## Streaming lemmas -/

theorem runStdoutPiped_body (chunks : List (List Nat)) :
    ∀ r : ResState, (runStdoutPiped r chunks).body = r.body ++ chunks := by
  induction chunks with
  | nil => intro r; simp [runStdoutPiped]
  | cons d ds ih =>
    intro r
    simp only [runStdoutPiped, List.foldl_cons] at ih ⊢
    rw [ih]
    simp

theorem runStdoutPiped_preserves (chunks : List (List Nat)) :
    ∀ r : ResState, (runStdoutPiped r chunks).status = r.status ∧
      (runStdoutPiped r chunks).ended = r.ended := by
  induction chunks with
  | nil => intro r; simp [runStdoutPiped]
  | cons d ds ih =>
    intro r
    simp only [runStdoutPiped, List.foldl_cons] at ih ⊢
    exact ih _

theorem runStdout_headersSent_frozen (chunks : List (List Nat)) :
    ∀ r : ResState, r.headersSent = true → runStdout r chunks = r := by
  induction chunks with
  | nil => intro r _; simp [runStdout]
  | cons d ds ih =>
    intro r hr
    simp only [runStdout, List.foldl_cons, onStdoutChunk, hr, if_true] at ih ⊢
    exact ih r hr

theorem runStdout_body (chunks : List (List Nat)) :
    ∀ r : ResState, r.headersSent = false →
      (runStdout r chunks).body = r.body ++ chunks.take 1 := by
  induction chunks with
  | nil => intro r _; simp [runStdout]
  | cons d ds _ =>
    intro r hr
    have step : onStdoutChunk r d
        = { r with headersSent := true, body := r.body ++ [d] } := by
      simp [onStdoutChunk, hr]
    simp only [runStdout, List.foldl_cons, step]
    rw [show (List.foldl onStdoutChunk
        { r with headersSent := true, body := r.body ++ [d] } ds)
      = runStdout { r with headersSent := true, body := r.body ++ [d] } ds from rfl]
    rw [runStdout_headersSent_frozen ds _ rfl]
    simp

/-! ## C5: stdout forwarding to the response body -/

/-- C5 as it holds in the simple variant and fails in the retrying variant:
`pipe` forwards every stdout chunk to the response body, but the retrying
variant guards each write with `!res.headersSent`, and the first write
flushes the headers — so only the first chunk reaches the body and every
later chunk is dropped.  At the concrete failing input of two chunks, the
body holds only the first. -/
theorem stdout_forwarding (id : String) (chunks : List (List Nat)) :
    (runStdoutPiped (setDownloadHeaders id initialRes) chunks).body = chunks ∧
    (runStdout (setDownloadHeaders id initialRes) chunks).body = chunks.take 1 ∧
    (runStdout (setDownloadHeaders "v" initialRes) [[1], [2]]).body = [[1]] := by
  refine ⟨?_, ?_, rfl⟩
  · rw [runStdoutPiped_body]
    simp [setDownloadHeaders, initialRes]
  · rw [runStdout_body chunks _ rfl]
    simp [setDownloadHeaders, initialRes]

/-! ## C4: successful exit completes the response and broadcasts `complete` -/

/-- C4 as it holds in the simple variant and fails in the retrying variant:
with exit code 0, the simple variant ends the piped response without an
error status and broadcasts a `complete` event to every open client; in the
retrying variant, at the failing input of a run that emitted one stdout
chunk, the `complete` event is broadcast and no error status is set, but
`res.end()` is guarded by `!res.headersSent` — which is true after the
chunk was written — so the response is never ended. -/
theorem successful_exit_completes (id : String) (chunks : List (List Nat)) :
    ((simpleSuccessFlow id chunks).1.ended = true ∧
     (simpleSuccessFlow id chunks).1.status = none ∧
     (simpleSuccessFlow id chunks).2 = [.complete id]) ∧
    (∀ (clients : List WsClient), ∀ c ∈ clients, c.readyState = 1 →
      (c.cid, WsEvent.complete id) ∈ broadcast clients (.complete id)) ∧
    ((handleClose "v" 0 true "" 1
        (runStdout (setDownloadHeaders "v" initialRes) [[1]]) []).events
       = [.complete "v"] ∧
     (handleClose "v" 0 true "" 1
        (runStdout (setDownloadHeaders "v" initialRes) [[1]]) []).res.status = none ∧
     (handleClose "v" 0 true "" 1
        (runStdout (setDownloadHeaders "v" initialRes) [[1]]) []).res.ended = false) := by
  refine ⟨⟨?_, ?_, ?_⟩, fun clients c hc hopen => mem_broadcast clients _ c hc hopen,
    rfl, rfl, rfl⟩
  · simp [simpleSuccessFlow, handleCloseSimple, pipeEnd]
  · have hp := (runStdoutPiped_preserves chunks (setDownloadHeaders id initialRes)).1
    simp [setDownloadHeaders, initialRes] at hp
    simp [simpleSuccessFlow, handleCloseSimple, pipeEnd, setDownloadHeaders, initialRes, hp]
  · simp [simpleSuccessFlow, handleCloseSimple]

/-- Witness for C4 at a concrete download and a single open client. -/
theorem successful_exit_completes_witness :
    (simpleSuccessFlow "v" [[1], [2]]).1.ended = true ∧
    (simpleSuccessFlow "v" [[1], [2]]).2 = [.complete "v"] ∧
    (5, WsEvent.complete "v") ∈ broadcast [⟨5, 1⟩] (.complete "v") := by
  have h := successful_exit_completes "v" [[1], [2]]
  exact ⟨h.1.1, h.1.2.2, h.2.1 [⟨5, 1⟩] ⟨5, 1⟩ (by simp) rfl⟩

/-! ## Association-list lemmas for the `activeDownloads` map -/

theorem countKey_cons {α : Type} (q : String × α) (t : List (String × α)) (k : String) :
    countKey (q :: t) k = (if q.1 == k then 1 else 0) + countKey t k := by
  by_cases h : (q.1 == k) = true
  · simp [countKey, List.filter_cons, h, Nat.add_comm]
  · simp [countKey, List.filter_cons, h]

theorem countKey_set {α : Type} (m : List (String × α)) (k : String) (v : α) (k' : String) :
    countKey (jsMapSet m k v) k'
      = if k' = k then max (countKey m k) 1 else countKey m k' := by
  induction m with
  | nil =>
    by_cases hk : k' = k
    · subst hk; simp [jsMapSet, countKey, List.filter_cons]
    · simp [jsMapSet, countKey, List.filter_cons, hk,
        beq_eq_false_iff_ne.mpr (Ne.symm hk)]
  | cons q t ih =>
    by_cases hq : (q.1 == k) = true
    · have hq' : q.1 = k := by simpa using hq
      by_cases hk : k' = k
      · subst hk
        simp only [jsMapSet, hq, if_true, countKey_cons, hq', beq_self_eq_true]
        rw [Nat.max_eq_left (by omega)]
      · have hne : (k == k') = false := beq_eq_false_iff_ne.mpr (Ne.symm hk)
        have hq2 : (q.1 == k') = false := by rw [hq']; exact hne
        simp only [jsMapSet, hq, if_true, countKey_cons, hq2, hne, hk, if_false]
    · by_cases hk : k' = k
      · subst hk
        have hq2 : (q.1 == k') = false := by simpa using hq
        simp only [jsMapSet, hq, Bool.false_eq_true, if_false, countKey_cons, hq2,
          ih, if_pos rfl]
        simp
      · simp only [jsMapSet, hq, Bool.false_eq_true, if_false, countKey_cons, ih, hk]

theorem countKey_delete {α : Type} (m : List (String × α)) (k k' : String) :
    countKey (jsMapDelete m k) k' = if k' = k then 0 else countKey m k' := by
  induction m with
  | nil => simp [jsMapDelete, countKey]
  | cons q t ih =>
    by_cases hq : (q.1 != k) = true
    · simp only [jsMapDelete, List.filter_cons, hq, if_true] at ih ⊢
      rw [countKey_cons, countKey_cons, ih]
      by_cases hk : k' = k
      · subst hk
        have : (q.1 == k') = false := by simpa using hq
        simp [this]
      · simp [hk]
    · have hqk : q.1 = k := by simpa using hq
      simp only [jsMapDelete, List.filter_cons, hq, Bool.false_eq_true, if_false] at ih ⊢
      rw [ih, countKey_cons]
      by_cases hk : k' = k
      · simp [hk]
      · have : (q.1 == k') = false := by
          rw [hqk]; exact beq_eq_false_iff_ne.mpr (Ne.symm hk)
        simp [hk, this]

theorem countKey_update (m : ADMap) (id : String) (p : ℚ) (k' : String) :
    countKey (updateProgress m id p) k' = countKey m k' := by
  induction m with
  | nil => rfl
  | cons q t ih =>
    simp only [updateProgress, List.map_cons] at ih ⊢
    rw [countKey_cons, countKey_cons, ih]
    by_cases hq : (q.1 == id) = true <;> simp [hq]

theorem countKey_zero_of_not_mem {α : Type} (m : List (String × α)) (k : String)
    (h : k ∉ m.map Prod.fst) : countKey m k = 0 := by
  induction m with
  | nil => rfl
  | cons q t ih =>
    simp only [List.map_cons, List.mem_cons, not_or] at h
    rw [countKey_cons, ih h.2, beq_eq_false_iff_ne.mpr (Ne.symm h.1)]
    simp

theorem countKey_le_one_of_nodup {α : Type} (m : List (String × α))
    (h : (m.map Prod.fst).Nodup) : ∀ k, countKey m k ≤ 1 := by
  induction m with
  | nil => intro k; simp [countKey]
  | cons q t ih =>
    intro k
    simp only [List.map_cons, List.nodup_cons] at h
    rw [countKey_cons]
    by_cases hq : (q.1 == k) = true
    · have : q.1 = k := by simpa using hq
      rw [hq, countKey_zero_of_not_mem t k (this ▸ h.1)]
      simp
    · have : (q.1 == k) = false := by simpa using hq
      rw [this]
      simpa using ih h.2 k

theorem jsMapGet?_set_self {α : Type} (m : List (String × α)) (k : String) (v : α) :
    jsMapGet? (jsMapSet m k v) k = some v := by
  induction m with
  | nil => simp [jsMapSet, jsMapGet?]
  | cons q t ih =>
    by_cases hq : (q.1 == k) = true
    · simp [jsMapSet, hq, jsMapGet?]
    · simp [jsMapSet, hq, jsMapGet?, ih]

theorem jsMapGet?_delete_self {α : Type} (m : List (String × α)) (k : String) :
    jsMapGet? (jsMapDelete m k) k = none := by
  induction m with
  | nil => rfl
  | cons q t ih =>
    by_cases hq : (q.1 != k) = true
    · have : (q.1 == k) = false := by simpa using hq
      simp only [jsMapDelete, List.filter_cons, hq, if_true] at ih ⊢
      simp [jsMapGet?, this, ih]
    · simp only [jsMapDelete, List.filter_cons, hq, Bool.false_eq_true, if_false] at ih ⊢
      exact ih

theorem updateProgress_get (m : ADMap) (id : String) (p : ℚ) (e : DownloadEntry)
    (h : jsMapGet? m id = some e) :
    jsMapGet? (updateProgress m id p) id = some { e with progress := p } := by
  induction m with
  | nil => simp [jsMapGet?] at h
  | cons q t ih =>
    by_cases hq : (q.1 == id) = true
    · simp only [jsMapGet?, hq, if_true, Option.some.injEq] at h
      simp [updateProgress, hq, jsMapGet?, h]
    · simp only [jsMapGet?, hq, Bool.false_eq_true, if_false] at h
      simp only [updateProgress, List.map_cons, hq, Bool.false_eq_true, if_false, jsMapGet?]
      simpa [updateProgress] using ih h

/-! ## C8: lifecycle of the `activeDownloads` map -/

/-- C8: when the keys of the `activeDownloads` map are distinct, every
operation of the download lifecycle keeps at most one entry per video
identifier; accepting a request creates the entry (progress 0) under its
id, a matching progress line updates that entry in place, and both the
close handler and the spawn-error handler delete the entry first thing, so
after any termination the id is no longer present. -/
theorem activeDownloads_lifecycle (m : ADMap) (id : String) (pid attempt : Nat) (p : ℚ)
    (h : (m.map Prod.fst).Nodup) :
    (∀ k, countKey (acceptDownload m id pid attempt) k ≤ 1) ∧
    (∀ k, countKey (updateProgress m id p) k ≤ 1) ∧
    (∀ k, countKey (jsMapDelete m id) k ≤ 1) ∧
    jsMapGet? (acceptDownload m id pid attempt) id = some ⟨pid, 0, attempt⟩ ∧
    (∀ e, jsMapGet? m id = some e →
      jsMapGet? (updateProgress m id p) id = some { e with progress := p }) ∧
    (∀ (code : Int) (hasData : Bool) (err : String) (att : Nat) (r : ResState),
      (handleClose id code hasData err att r m).downloads = jsMapDelete m id ∧
      jsMapGet? (handleClose id code hasData err att r m).downloads id = none) ∧
    (∀ (att : Nat) (r : ResState),
      (handleSpawnErr id att r m).downloads = jsMapDelete m id ∧
      jsMapGet? (handleSpawnErr id att r m).downloads id = none) := by
  have hcount := countKey_le_one_of_nodup m h
  refine ⟨fun k => ?_, fun k => ?_, fun k => ?_, ?_, fun e he => ?_,
    fun code hasData err att r => ?_, fun att r => ?_⟩
  · rw [acceptDownload, countKey_set]
    by_cases hk : k = id
    · rw [if_pos hk]
      exact Nat.max_le.mpr ⟨hcount id, Nat.le_refl 1⟩
    · rw [if_neg hk]; exact hcount k
  · rw [countKey_update]; exact hcount k
  · rw [countKey_delete]
    by_cases hk : k = id
    · simp [hk]
    · rw [if_neg hk]; exact hcount k
  · exact jsMapGet?_set_self m id ⟨pid, 0, attempt⟩
  · exact updateProgress_get m id p e he
  · have hdl : (handleClose id code hasData err att r m).downloads = jsMapDelete m id := by
      cases hcd : closeDecision code hasData err att <;> simp [handleClose, hcd]
    exact ⟨hdl, hdl ▸ jsMapGet?_delete_self m id⟩
  · have hdl : (handleSpawnErr id att r m).downloads = jsMapDelete m id := by
      by_cases hlt : att < maxAttempts <;> simp [handleSpawnErr, hlt]
    exact ⟨hdl, hdl ▸ jsMapGet?_delete_self m id⟩

/-- Witness for C8 at a concrete two-entry map. -/
theorem activeDownloads_lifecycle_witness :
    countKey (acceptDownload [("b", ⟨2, 0, 1⟩), ("a", ⟨9, 0, 1⟩)] "a" 9 2) "a" ≤ 1 ∧
    jsMapGet? (acceptDownload [("b", ⟨2, 0, 1⟩), ("a", ⟨9, 0, 1⟩)] "a" 9 2) "a"
      = some ⟨9, 0, 2⟩ ∧
    jsMapGet?
      (handleClose "a" 0 true "" 1 initialRes
        [("b", ⟨2, 0, 1⟩), ("a", ⟨9, 0, 1⟩)]).downloads "a" = none := by
  have h := activeDownloads_lifecycle [("b", ⟨2, 0, 1⟩), ("a", ⟨9, 0, 1⟩)] "a" 9 2 0
    (by decide)
  exact ⟨h.1 "a", h.2.2.2.1, (h.2.2.2.2.2.1 0 true "" 1 initialRes).2⟩

end YtMusic
